import Mathlib

/-!
Verification of `gcloud/storage/__init__.py`, a glue module exposing two
factory functions `get_connection` and `get_bucket` over three external
collaborators (`Credentials.get_for_service_account`, the `Connection`
constructor, and `connection.get_bucket`).

The shallow embedding models:
* module-level constants (`__version__`, `SCOPE`) as an explicitly threaded
  `Globals` record, so frame properties about module state are statable;
* the three collaborators as an abstract record `Collab` of fallible
  functions (`Except` results stand for Python calls that may raise);
* each collaborator invocation as an `Event` appended to a trace, so
  "invoked exactly once with exactly these arguments" is statable;
* Python's positional-argument calling convention for the in-module call
  `get_connection(...)`: a call with an argument list whose length differs
  from the three declared parameters raises a `TypeError` before the
  function body runs.
-/

/-- The module constant `__version__ = '0.1'`. -/
def module_version : String := "0.1"

/-- The module constant `SCOPE`: the hard-coded pair of OAuth scope URIs. -/
def SCOPE : List String :=
  ["https://www.googleapis.com/auth/devstorage.full_control",
   "https://www.googleapis.com/auth/devstorage.read_write"]

/-- Module-level state of `gcloud.storage`: its two module constants. -/
structure Globals where
  version : String
  scope : List String
deriving DecidableEq, Repr

/-- The module state as initialised at import time. -/
def initGlobals : Globals := { version := module_version, scope := SCOPE }

/-- A Python exception as seen by this module: either a `TypeError` raised
by the calling convention itself, or an exception raised by a collaborator
(of abstract type `ε`), carried unmodified. -/
inductive PyErr (ε : Type) where
  | typeError (msg : String) : PyErr ε
  | raised (e : ε) : PyErr ε
deriving DecidableEq, Repr

/-- The three external collaborators composed by the module, abstracted:
`κ` credentials, `γ` connections, `β` buckets, `ε` collaborator errors. -/
structure Collab (κ γ β ε : Type) where
  get_for_service_account : String → String → List String → Except ε κ
  mkConnection : String → κ → Except ε γ
  get_bucket : γ → String → Except ε β

/-- One collaborator invocation, recording the exact arguments passed
(and, for the bucket call, the receiver). -/
inductive Event (κ γ : Type) where
  | credCall (client_email private_key_path : String) (scope : List String) : Event κ γ
  | connCall (project_name : String) (credentials : κ) : Event κ γ
  | bucketCall (connection : γ) (bucket_name : String) : Event κ γ
deriving DecidableEq, Repr

/-- Whether an event is a credential-acquisition call. -/
def Event.isCred : Event κ γ → Bool
  | .credCall _ _ _ => true
  | _ => false

/-- Whether an event is a `Connection` construction. -/
def Event.isConn : Event κ γ → Bool
  | .connCall _ _ => true
  | _ => false

/-- Whether an event is a bucket-resolution call. -/
def Event.isBucket : Event κ γ → Bool
  | .bucketCall _ _ => true
  | _ => false

/-- The credential-acquisition calls recorded in a trace. -/
def credCalls (tr : List (Event κ γ)) : List (Event κ γ) :=
  tr.filter Event.isCred

/-- The `Connection`-construction calls recorded in a trace. -/
def connCalls (tr : List (Event κ γ)) : List (Event κ γ) :=
  tr.filter Event.isConn

/-- The bucket-resolution calls recorded in a trace. -/
def bucketCalls (tr : List (Event κ γ)) : List (Event κ γ) :=
  tr.filter Event.isBucket

/-- The `TypeError` message Python raises when `get_connection`, declared
with three positional parameters, is called with `n` arguments. -/
def arityMsg (n : Nat) : String :=
  "get_connection() takes exactly 3 arguments (" ++ toString n ++ " given)"

/-- The body of `get_connection(project_name, client_email,
private_key_path)`: obtain credentials for `(client_email,
private_key_path)` with the module's `SCOPE` (read from the module state),
then construct a `Connection` from `project_name` and those credentials.
Returns the result, the collaborator-call trace, and the final module
state. -/
def get_connection_st (C : Collab κ γ β ε) (g : Globals)
    (project_name client_email private_key_path : String) :
    Except (PyErr ε) γ × List (Event κ γ) × Globals :=
  match C.get_for_service_account client_email private_key_path g.scope with
  | .error err =>
      (.error (.raised err),
       [.credCall client_email private_key_path g.scope], g)
  | .ok credentials =>
      match C.mkConnection project_name credentials with
      | .error err =>
          (.error (.raised err),
           [.credCall client_email private_key_path g.scope,
            .connCall project_name credentials], g)
      | .ok connection =>
          (.ok connection,
           [.credCall client_email private_key_path g.scope,
            .connCall project_name credentials], g)

/-- A Python-style positional call of `get_connection` with an explicit
argument list: the body runs only when exactly three arguments are given,
otherwise a `TypeError` is raised with no collaborator invoked. -/
def call_get_connection (C : Collab κ γ β ε) (g : Globals)
    (args : List String) :
    Except (PyErr ε) γ × List (Event κ γ) × Globals :=
  match args with
  | [p, e, k] => get_connection_st C g p e k
  | _ => (.error (.typeError (arityMsg args.length)), [], g)

/-- The body of `get_bucket(bucket_name, client_email, private_key_path)`,
exactly as written in the source: call `get_connection(client_email,
private_key_path)` — two positional arguments — and, if that returns a
connection, delegate to `connection.get_bucket(bucket_name)`. -/
def get_bucket_st (C : Collab κ γ β ε) (g : Globals)
    (bucket_name client_email private_key_path : String) :
    Except (PyErr ε) β × List (Event κ γ) × Globals :=
  match call_get_connection C g [client_email, private_key_path] with
  | (.error err, tr, g2) => (.error err, tr, g2)
  | (.ok connection, tr, g2) =>
      match C.get_bucket connection bucket_name with
      | .error err =>
          (.error (.raised err), tr ++ [.bucketCall connection bucket_name], g2)
      | .ok b =>
          (.ok b, tr ++ [.bucketCall connection bucket_name], g2)

/-- Manual chaining as the spec describes it: the three-argument call
`get_connection(project_name, client_email, private_key_path)` followed by
`connection.get_bucket(bucket_name)`. -/
def chain3_st (C : Collab κ γ β ε) (g : Globals)
    (project_name bucket_name client_email private_key_path : String) :
    Except (PyErr ε) β × List (Event κ γ) × Globals :=
  match call_get_connection C g [project_name, client_email, private_key_path] with
  | (.error err, tr, g2) => (.error err, tr, g2)
  | (.ok connection, tr, g2) =>
      match C.get_bucket connection bucket_name with
      | .error err =>
          (.error (.raised err), tr ++ [.bucketCall connection bucket_name], g2)
      | .ok b =>
          (.ok b, tr ++ [.bucketCall connection bucket_name], g2)

/-- Manual chaining with the arguments `get_bucket` actually passes: the
two-argument call `get_connection(client_email, private_key_path)` followed
by `connection.get_bucket(bucket_name)`. Spec-side definition for the
refinement comparison. -/
def chain2_st (C : Collab κ γ β ε) (g : Globals)
    (bucket_name client_email private_key_path : String) :
    Except (PyErr ε) β × List (Event κ γ) × Globals :=
  match call_get_connection C g [client_email, private_key_path] with
  | (.error err, tr, g2) => (.error err, tr, g2)
  | (.ok connection, tr, g2) =>
      match C.get_bucket connection bucket_name with
      | .error err =>
          (.error (.raised err), tr ++ [.bucketCall connection bucket_name], g2)
      | .ok b =>
          (.ok b, tr ++ [.bucketCall connection bucket_name], g2)

/-- A concrete stub collaborator set over `String` carriers, used for
scenario theorems: each collaborator succeeds and returns a value encoding
exactly the arguments it was given. -/
def stubC : Collab String String String String where
  get_for_service_account := fun e k _ => .ok ("cred:" ++ e ++ ":" ++ k)
  mkConnection := fun p c => .ok ("conn:" ++ p ++ ":" ++ c)
  get_bucket := fun conn b => .ok ("bucket:" ++ conn ++ ":" ++ b)

/-- A stub collaborator set whose credential acquisition raises, for
error-propagation scenarios. -/
def stubErrC : Collab String String String String where
  get_for_service_account := fun _ _ _ => .error "boom"
  mkConnection := fun p c => .ok ("conn:" ++ p ++ ":" ++ c)
  get_bucket := fun conn b => .ok ("bucket:" ++ conn ++ ":" ++ b)

lemma get_bucket_st_eq (C : Collab κ γ β ε) (g : Globals) (b e k : String) :
    get_bucket_st C g b e k =
      (Except.error (PyErr.typeError (arityMsg 2)), ([], g)) := rfl

lemma get_connection_globals_frame (C : Collab κ γ β ε) (g : Globals)
    (p e k : String) : (get_connection_st C g p e k).2.2 = g := by
  unfold get_connection_st
  split
  · rfl
  · split <;> rfl

lemma get_connection_scope_only (C : Collab κ γ β ε) (g g' : Globals)
    (p e k : String) (hs : g.scope = g'.scope) :
    (get_connection_st C g p e k).1 = (get_connection_st C g' p e k).1 ∧
    (get_connection_st C g p e k).2.1 = (get_connection_st C g' p e k).2.1 := by
  unfold get_connection_st
  rw [hs]
  split
  · exact ⟨rfl, rfl⟩
  · split <;> exact ⟨rfl, rfl⟩

lemma get_connection_st_error (C : Collab κ γ β ε) (g : Globals)
    (p e k : String) (err : ε)
    (h : C.get_for_service_account e k g.scope = Except.error err) :
    get_connection_st C g p e k =
      (Except.error (PyErr.raised err), ([Event.credCall e k g.scope], g)) := by
  unfold get_connection_st
  rw [h]

lemma get_connection_st_ok_error (C : Collab κ γ β ε) (g : Globals)
    (p e k : String) (cred : κ) (err : ε)
    (h1 : C.get_for_service_account e k g.scope = Except.ok cred)
    (h2 : C.mkConnection p cred = Except.error err) :
    get_connection_st C g p e k =
      (Except.error (PyErr.raised err),
       ([Event.credCall e k g.scope, Event.connCall p cred], g)) := by
  unfold get_connection_st
  simp only [h1, h2]

lemma get_connection_st_ok_ok (C : Collab κ γ β ε) (g : Globals)
    (p e k : String) (cred : κ) (conn : γ)
    (h1 : C.get_for_service_account e k g.scope = Except.ok cred)
    (h2 : C.mkConnection p cred = Except.ok conn) :
    get_connection_st C g p e k =
      (Except.ok conn,
       ([Event.credCall e k g.scope, Event.connCall p cred], g)) := by
  unfold get_connection_st
  simp only [h1, h2]

/-- Claim C9: for every collaborator set and input, the missing-argument
error inside `get_bucket` is raised before any collaborator is invoked: the
result is exactly that `TypeError`, the collaborator trace is empty (no
credential acquisition, no `Connection` construction, no bucket
resolution), and the module state is untouched. -/
theorem get_bucket_raises_before_any_collaborator (κ γ β ε : Type)
    (C : Collab κ γ β ε) (g : Globals) (b e k : String) :
    get_bucket_st C g b e k =
      (Except.error (PyErr.typeError (arityMsg 2)), ([], g)) ∧
    credCalls (get_bucket_st C g b e k).2.1 = [] ∧
    connCalls (get_bucket_st C g b e k).2.1 = [] ∧
    bucketCalls (get_bucket_st C g b e k).2.1 = [] :=
  ⟨rfl, rfl, rfl, rfl⟩

/-- Claim C3: `get_bucket` passes only the two positional arguments
`(client_email, private_key_path)` to `get_connection`, which declares
three parameters: any positional call of `get_connection` whose argument
list does not have length three raises the missing-argument `TypeError`
(while a three-argument call runs the body), and hence
`get_bucket(bucket_name, client_email, private_key_path)` raises that
error for every input. -/
theorem get_bucket_missing_argument_error (κ γ β ε : Type)
    (C : Collab κ γ β ε) (g : Globals) (b e k : String) :
    (get_bucket_st C g b e k).1 =
      Except.error (PyErr.typeError (arityMsg 2)) ∧
    List.length [e, k] = 2 ∧
    (∀ args : List String, args.length ≠ 3 →
        (call_get_connection C g args).1 =
          Except.error (PyErr.typeError (arityMsg args.length))) ∧
    (∀ p, call_get_connection C g [p, e, k] = get_connection_st C g p e k) := by
  refine ⟨rfl, rfl, ?_, fun p => rfl⟩
  intro args hlen
  rcases args with _ | ⟨a, _ | ⟨a2, _ | ⟨a3, _ | ⟨a4, t⟩⟩⟩⟩
  · rfl
  · rfl
  · rfl
  · exact absurd rfl hlen
  · rfl

/-- Closed instance of `get_bucket_missing_argument_error` at concrete
arguments and the stub collaborators, discharging its hypotheses. -/
theorem get_bucket_missing_argument_error_witness :
    (get_bucket_st stubC initGlobals "b" "e@x" "/k").1 =
      Except.error (PyErr.typeError (arityMsg 2)) ∧
    (call_get_connection stubC initGlobals ["e@x", "/k"]).1 =
      Except.error (PyErr.typeError (arityMsg 2)) := by
  have h := get_bucket_missing_argument_error String String String String
    stubC initGlobals "b" "e@x" "/k"
  exact ⟨h.1, h.2.2.1 ["e@x", "/k"] (by decide)⟩

/-- Claim C4 (code bug): with the stubbed collaborator set `stubC`, the
call `get_bucket('b', 'email@x', '/key')` does not call the
bucket-resolution method once with argument `'b'` — it raises the
missing-argument `TypeError` with an empty collaborator trace; the
three-argument manual chain shows the intended single bucket-resolution
call. -/
theorem get_bucket_stub_scenario :
    bucketCalls (get_bucket_st stubC initGlobals "b" "email@x" "/key").2.1 = [] ∧
    (get_bucket_st stubC initGlobals "b" "email@x" "/key").1 =
      Except.error (PyErr.typeError (arityMsg 2)) ∧
    bucketCalls (chain3_st stubC initGlobals "proj" "b" "email@x" "/key").2.1 =
      [Event.bucketCall "conn:proj:cred:email@x:/key" "b"] :=
  ⟨rfl, rfl, rfl⟩

/-- Claim C8: every call to `get_connection` or `get_bucket` leaves the
module-level state unchanged: the full `Globals` record, and in particular
its `scope` (`SCOPE`) and `version` (`__version__`) fields, are the same
after the call as before it. -/
theorem module_state_unchanged (κ γ β ε : Type) (C : Collab κ γ β ε)
    (g : Globals) (p b e k : String) :
    (get_connection_st C g p e k).2.2 = g ∧
    (get_bucket_st C g b e k).2.2 = g ∧
    (get_connection_st C g p e k).2.2.scope = g.scope ∧
    (get_connection_st C g p e k).2.2.version = g.version ∧
    (get_bucket_st C g b e k).2.2.scope = g.scope ∧
    (get_bucket_st C g b e k).2.2.version = g.version := by
  have h := get_connection_globals_frame C g p e k
  exact ⟨h, rfl, by rw [h], by rw [h], rfl, rfl⟩

/-- Counterexample to claim C1 as stated: with the stub collaborators, the
manual three-argument chain returns a bucket handle while
`get_bucket` raises the missing-argument `TypeError`, so the two results
differ. -/
theorem get_bucket_vs_chain3_counterexample :
    (chain3_st stubC initGlobals "proj" "b" "e@x" "/k").1 =
      Except.ok "bucket:conn:proj:cred:e@x:/k:b" ∧
    (get_bucket_st stubC initGlobals "b" "e@x" "/k").1 =
      Except.error (PyErr.typeError (arityMsg 2)) ∧
    (get_bucket_st stubC initGlobals "b" "e@x" "/k").1 ≠
      (chain3_st stubC initGlobals "proj" "b" "e@x" "/k").1 := by
  refine ⟨rfl, rfl, fun h => ?_⟩
  have h2 : (Except.error (PyErr.typeError (arityMsg 2)) : Except (PyErr String) String) =
      Except.ok "bucket:conn:proj:cred:e@x:/k:b" := h
  exact Except.noConfusion h2

/-- Claim C1 (amended): `get_bucket(bucket_name, client_email,
private_key_path)` produces exactly the same result, trace and state as
manually chaining the call it actually makes —
`get_connection(client_email, private_key_path)` with two positional
arguments, then `.get_bucket(bucket_name)` — and both runs raise the
missing-argument `TypeError`. -/
theorem get_bucket_matches_actual_chain (κ γ β ε : Type) (C : Collab κ γ β ε)
    (g : Globals) (b e k : String) :
    get_bucket_st C g b e k = chain2_st C g b e k ∧
    (chain2_st C g b e k).1 = Except.error (PyErr.typeError (arityMsg 2)) :=
  ⟨rfl, rfl⟩

/-- Claim C2: when the module state carries the module's `SCOPE`,
`get_connection` invokes credential acquisition exactly once, with exactly
`(client_email, private_key_path)` and the fixed scope tuple `SCOPE`; and
whenever credential acquisition returns a credential object, the
`Connection` is constructed exactly once with exactly the given
`project_name` and that credential object unmodified, the construction's
outcome becoming the result. -/
theorem get_connection_invocation_contract (κ γ β ε : Type)
    (C : Collab κ γ β ε) (g : Globals) (p e k : String)
    (hs : g.scope = SCOPE) :
    credCalls (get_connection_st C g p e k).2.1 = [Event.credCall e k SCOPE] ∧
    ∀ cred, C.get_for_service_account e k SCOPE = Except.ok cred →
      connCalls (get_connection_st C g p e k).2.1 = [Event.connCall p cred] ∧
      (get_connection_st C g p e k).1 =
        Except.mapError PyErr.raised (C.mkConnection p cred) := by
  rw [← hs]
  constructor
  · rcases h1 : C.get_for_service_account e k g.scope with err | cred
    · rw [get_connection_st_error C g p e k err h1]
      simp [credCalls, Event.isCred]
    · rcases h2 : C.mkConnection p cred with err | conn
      · rw [get_connection_st_ok_error C g p e k cred err h1 h2]
        simp [credCalls, Event.isCred]
      · rw [get_connection_st_ok_ok C g p e k cred conn h1 h2]
        simp [credCalls, Event.isCred]
  · intro cred hcred
    rcases h2 : C.mkConnection p cred with err | conn
    · rw [get_connection_st_ok_error C g p e k cred err hcred h2]
      simp [connCalls, Event.isConn, Except.mapError]
    · rw [get_connection_st_ok_ok C g p e k cred conn hcred h2]
      simp [connCalls, Event.isConn, Except.mapError]

/-- Closed instance of `get_connection_invocation_contract` at the stub
collaborators and concrete arguments, discharging its hypotheses. -/
theorem get_connection_invocation_contract_witness :
    credCalls (get_connection_st stubC initGlobals "proj" "e@x" "/k").2.1 =
      [Event.credCall "e@x" "/k" SCOPE] ∧
    connCalls (get_connection_st stubC initGlobals "proj" "e@x" "/k").2.1 =
      [Event.connCall "proj" "cred:e@x:/k"] := by
  have h := get_connection_invocation_contract String String String String
    stubC initGlobals "proj" "e@x" "/k" rfl
  exact ⟨h.1, (h.2 "cred:e@x:/k" rfl).1⟩

/-- Claim C5: with collaborators that return fixed sentinel objects for
the scenario arguments, `get_connection('proj', 'e@x', '/k')` returns
exactly the sentinel `Connection` instance, and that `Connection` was
constructed with `project_name = 'proj'` and the sentinel credentials. -/
theorem get_connection_returns_sentinel (κ γ β ε : Type)
    (C : Collab κ γ β ε) (credSentinel : κ) (connSentinel : γ)
    (h1 : C.get_for_service_account "e@x" "/k" SCOPE = Except.ok credSentinel)
    (h2 : C.mkConnection "proj" credSentinel = Except.ok connSentinel) :
    (get_connection_st C initGlobals "proj" "e@x" "/k").1 =
      Except.ok connSentinel ∧
    connCalls (get_connection_st C initGlobals "proj" "e@x" "/k").2.1 =
      [Event.connCall "proj" credSentinel] := by
  have h1' : C.get_for_service_account "e@x" "/k" initGlobals.scope =
      Except.ok credSentinel := h1
  rw [get_connection_st_ok_ok C initGlobals "proj" "e@x" "/k"
    credSentinel connSentinel h1' h2]
  simp [connCalls, Event.isConn]

/-- Closed instance of `get_connection_returns_sentinel` at the stub
collaborators, discharging its hypotheses. -/
theorem get_connection_returns_sentinel_witness :
    (get_connection_st stubC initGlobals "proj" "e@x" "/k").1 =
      Except.ok "conn:proj:cred:e@x:/k" ∧
    connCalls (get_connection_st stubC initGlobals "proj" "e@x" "/k").2.1 =
      [Event.connCall "proj" "cred:e@x:/k"] :=
  get_connection_returns_sentinel String String String String stubC
    "cred:e@x:/k" "conn:proj:cred:e@x:/k" rfl rfl

/-- Claim C6: `SCOPE` is exactly the hard-coded two-element tuple of OAuth
scope URIs — full control first, read/write second — it is the scope in
the initial module state, and no other configuration is consulted:
`get_connection`'s result and trace depend on the module state only
through its `scope` field, and `get_bucket`'s result and trace do not
depend on the module state at all. -/
theorem scope_fixed_configuration (κ γ β ε : Type) :
    SCOPE = ["https://www.googleapis.com/auth/devstorage.full_control",
             "https://www.googleapis.com/auth/devstorage.read_write"] ∧
    SCOPE.length = 2 ∧
    initGlobals.scope = SCOPE ∧
    (∀ (C : Collab κ γ β ε) (g g' : Globals) (p e k : String),
        g.scope = g'.scope →
        (get_connection_st C g p e k).1 = (get_connection_st C g' p e k).1 ∧
        (get_connection_st C g p e k).2.1 =
          (get_connection_st C g' p e k).2.1) ∧
    (∀ (C : Collab κ γ β ε) (g g' : Globals) (b e k : String),
        (get_bucket_st C g b e k).1 = (get_bucket_st C g' b e k).1 ∧
        (get_bucket_st C g b e k).2.1 = (get_bucket_st C g' b e k).2.1) :=
  ⟨rfl, rfl, rfl,
   fun C g g' p e k hs => get_connection_scope_only C g g' p e k hs,
   fun _ _ _ _ _ _ => ⟨rfl, rfl⟩⟩

/-- Closed instance of `scope_fixed_configuration`, discharging the
hypothesis of its state-independence conjunct at concrete states. -/
theorem scope_fixed_configuration_witness :
    SCOPE.length = 2 ∧
    (get_connection_st stubC { version := "other", scope := SCOPE }
        "p" "e" "k").1 =
      (get_connection_st stubC initGlobals "p" "e" "k").1 := by
  have h := scope_fixed_configuration String String String String
  exact ⟨h.2.1,
    (h.2.2.2.1 stubC { version := "other", scope := SCOPE } initGlobals
      "p" "e" "k" rfl).1⟩

/-- Claim C7: neither function handles or translates errors: an error from
credential acquisition, from `Connection` construction, or from bucket
resolution propagates as exactly that error, and `get_bucket` forwards
whatever error its internal `get_connection` call produces, unmodified. -/
theorem errors_propagate_unmodified (κ γ β ε : Type) (C : Collab κ γ β ε)
    (g : Globals) (p b e k : String) :
    (∀ err, C.get_for_service_account e k g.scope = Except.error err →
        (get_connection_st C g p e k).1 = Except.error (PyErr.raised err)) ∧
    (∀ cred err, C.get_for_service_account e k g.scope = Except.ok cred →
        C.mkConnection p cred = Except.error err →
        (get_connection_st C g p e k).1 = Except.error (PyErr.raised err)) ∧
    (∀ cred conn err, C.get_for_service_account e k g.scope = Except.ok cred →
        C.mkConnection p cred = Except.ok conn →
        C.get_bucket conn b = Except.error err →
        (chain3_st C g p b e k).1 = Except.error (PyErr.raised err)) ∧
    (∀ pe, (call_get_connection C g [e, k]).1 = Except.error pe →
        (get_bucket_st C g b e k).1 = Except.error pe) := by
  refine ⟨?_, ?_, ?_, ?_⟩
  · intro err h
    rw [get_connection_st_error C g p e k err h]
  · intro cred err h1 h2
    rw [get_connection_st_ok_error C g p e k cred err h1 h2]
  · intro cred conn err h1 h2 h3
    unfold chain3_st
    simp only [call_get_connection]
    rw [get_connection_st_ok_ok C g p e k cred conn h1 h2]
    simp [h3]
  · intro pe h
    have h' : (Except.error (PyErr.typeError (arityMsg 2)) :
        Except (PyErr ε) γ) = Except.error pe := h
    injection h' with hpe
    rw [← hpe]
    rfl

/-- Closed instance of `errors_propagate_unmodified` at the erroring stub
and concrete arguments, discharging its hypotheses. -/
theorem errors_propagate_unmodified_witness :
    (get_connection_st stubErrC initGlobals "p" "e" "k").1 =
      Except.error (PyErr.raised "boom") ∧
    (get_bucket_st stubC initGlobals "b" "e" "k").1 =
      Except.error (PyErr.typeError (arityMsg 2)) := by
  have h1 := (errors_propagate_unmodified String String String String
    stubErrC initGlobals "p" "b" "e" "k").1 "boom" rfl
  have h2 := (errors_propagate_unmodified String String String String
    stubC initGlobals "p" "b" "e" "k").2.2.2
    (PyErr.typeError (arityMsg 2)) rfl
  exact ⟨h1, h2⟩

/-- Claim C10: `get_connection` is deterministic relative to its
collaborators: a second call performed in the module state left by a first
call with the same arguments yields the very same result, and equal
arguments always yield equal results, since the function reads nothing but
its arguments and the module state's scope. -/
theorem get_connection_deterministic (κ γ β ε : Type) (C : Collab κ γ β ε)
    (g : Globals) (p e k : String) :
    get_connection_st C (get_connection_st C g p e k).2.2 p e k =
      get_connection_st C g p e k ∧
    ∀ p' e' k', p = p' → e = e' → k = k' →
      get_connection_st C g p e k = get_connection_st C g p' e' k' := by
  refine ⟨?_, fun p' e' k' hp he hk => by rw [hp, he, hk]⟩
  rw [get_connection_globals_frame C g p e k]

/-- Closed instance of `get_connection_deterministic` at the stub
collaborators, discharging the equal-argument hypotheses. -/
theorem get_connection_deterministic_witness :
    get_connection_st stubC
        (get_connection_st stubC initGlobals "p" "e" "k").2.2 "p" "e" "k" =
      get_connection_st stubC initGlobals "p" "e" "k" ∧
    get_connection_st stubC initGlobals "p" "e" "k" =
      get_connection_st stubC initGlobals "p" "e" "k" := by
  have h := get_connection_deterministic String String String String
    stubC initGlobals "p" "e" "k"
  exact ⟨h.1, h.2 "p" "e" "k" rfl rfl rfl⟩
